import Mathlib

/-!
Verification of the GINja neutron-reflectometry data-reduction core.

This file is a shallow embedding, in Lean 4, of the reduction pipeline of the
GINja converter: the configuration data model (`converter/datatypes.py`), the
correction engine (`converter/correction.py`), the Q-resolution calculator
(`converter/calulation.py`), the numeric helpers (`converter/utils.py`), the
configuration validator (`converter/check_config.py`) and the reduction
orchestrator (`converter/reduction.py`).

Modelling conventions:
* numpy float arrays become `List ℝ`; elementwise numpy operations become
  `List.zipWith` / `List.map` (all arrays of one dataset share a length, so
  the truncating behaviour of `zipWith` is never exercised on valid data);
* 2-D detector frames become functions `ℕ → ℕ → ℝ` (pixel grid indexed by
  y then x), and a time series of frames becomes a `List (ℕ → ℕ → ℝ)`;
* Python exceptions become `Except PyError`; `raise ValueError(msg)` is
  `.error (.valueError msg)` and `raise NotImplementedError` is
  `.error (.notImplementedError none)` (with `some msg` when a message is
  given);
* the mutable `DataSet.result : DataSetOutput` field that the Python code
  fills in place is modelled functionally: the orchestrator returns the
  `DataSetOutput` values instead of mutating them;
* the module `converter/config.py` is not part of the sources; the constant
  `WAVELENGTH_RESOLUTION` it provides is therefore passed to the orchestrator
  as an explicit parameter `dlam_rel`, and `POLARISATION_DEVICES` is modelled
  from the spec (see `get_polarisation`).
-/

namespace GINja

noncomputable section

/-! ## Data model (converter/datatypes.py) -/

/-- The `MuDataEnum`: tabulated linear absorption coefficients for typical
substrates (datatypes.py). -/
inductive MuDataEnum where
  | glass
  | Si
  | SiO2
  | Al2O3
deriving DecidableEq

/-- The numeric value carried by each `MuDataEnum` member. -/
def MuDataEnum.value : MuDataEnum → ℝ
  | .glass => 0.0001667
  | .Si => 0.0000556
  | .SiO2 => 0.0000278
  | .Al2O3 => 0.0000278

/-- The `AdsorptionTypeCorrection`: source of the absorption coefficient. -/
inductive AdsorptionTypeCorrection where
  | constValue
  | typical
deriving DecidableEq

/-- The `BackgroundTypeCorrection`: background-correction mode. -/
inductive BackgroundTypeCorrection where
  | constValue
  | psdRegion
  | extraFile
deriving DecidableEq

/-- The `IntensityTypeCorrection`: intensity-normalisation mode. -/
inductive IntensityTypeCorrection where
  | constValue
  | maxValue
  | maxValueGlobal
  | psdRegion
deriving DecidableEq

/-- A rectangular detector region `(y_min, y_max, x_min, x_max)` with
inclusive bounds, as used for the 2-D detector ROI and background regions. -/
structure Region where
  y_min : ℕ
  y_max : ℕ
  x_min : ℕ
  x_max : ℕ
deriving DecidableEq

/-- The `SlitData`: two-slit widths and signed positions (datatypes.py). -/
structure SlitData where
  slit1_width : ℝ
  slit2_width : ℝ
  slit1_position : ℝ
  slit2_position : ℝ

/-- The `SampleData` (datatypes.py); only the fields the reduction pipeline
reads are carried. -/
structure SampleData where
  name : String
  length : ℝ
  thickness : ℝ
  height : ℝ

/-- The `PersonData` (datatypes.py). -/
structure PersonData where
  name : String
  affiliation : String

/-- The `ExperimentData` (datatypes.py); provenance only. -/
structure ExperimentData where
  title : String
  instrument : String

/-- The `InstrumentSettingsData` (datatypes.py); the reduction reads the
wavelength and the slit configuration. -/
structure InstrumentSettingsData where
  incident_angle : ℝ × ℝ
  angle_unit : String
  wavelength : ℝ
  slit_configuration : SlitData

/-- The `MeasurementData` (datatypes.py). -/
structure MeasurementData where
  instrument_settings : InstrumentSettingsData
  data_files : List String

/-- The `NormalisationConfig` (datatypes.py). -/
structure NormalisationConfig where
  time : Bool
  monitor : Bool
  intensity_norm : Bool
  intensity_norm_type : IntensityTypeCorrection
  intensity_value : ℝ
  intensity_point_number : ℤ
  intensity_region : Option Region

/-- The `ReductionConfig` (datatypes.py). -/
structure ReductionConfig where
  foot_print_correction : Bool
  absorption_correction : Bool
  polarisation_correction : Bool
  mu_type : AdsorptionTypeCorrection
  mu_enum : MuDataEnum
  mu_value : ℝ

/-- The `BackgroundConfig` (datatypes.py). -/
structure BackgroundConfig where
  use_correction : Bool
  correction_type : BackgroundTypeCorrection
  file : Option String
  value : ℝ
  region : Option Region

/-- The `DataSourceConfig` (datatypes.py). -/
structure DataSourceConfig where
  detector : String
  region : Option Region

/-- The `CorrectionParameters` (datatypes.py): the whole configuration tree. -/
structure CorrectionParameters where
  data_source : DataSourceConfig
  normalisation : NormalisationConfig
  background : BackgroundConfig
  reduction : ReductionConfig
  program_call : String

/-- The `DataSetMetadata` (datatypes.py). -/
structure DataSetMetadata where
  owner : PersonData
  experiment : ExperimentData
  sample : SampleData

/-- The `DataSet` (datatypes.py): one polarization channel's working state.  The
mutable `result : DataSetOutput` field of the Python dataclass is modelled
functionally (the orchestrator returns the outputs). -/
structure DataSet where
  header : DataSetMetadata
  measurement : MeasurementData
  theta : List ℝ
  time : List ℝ
  monitor : List ℝ
  counts : List ℝ
  e_counts : List ℝ
  background : List ℝ
  e_background : List ℝ

/-- The `DataSetOutput` (datatypes.py): the per-channel results `(Q, ΔQ, R, ΔR)`
filled by the pipeline. -/
structure DataSetOutput where
  Q : List ℝ
  dQ : List ℝ
  R : List ℝ
  dR : List ℝ

/-- Python exceptions raised by the pipeline. -/
inductive PyError where
  | valueError (msg : String)
  | notImplementedError (msg : Option String)
deriving DecidableEq

/-! ## Numeric helpers -/

/-- The `np.radians`: degrees to radians. -/
def radians (deg : ℝ) : ℝ := deg * (Real.pi / 180)

/-- The `safety_div` (utils.py): elementwise division in which a near-zero
denominator (`|b| < 1e-12`) is replaced by the large constant `1/1e-12`
before dividing. -/
def safety_div (first_arg second_arg : ℝ) : ℝ :=
  first_arg / (if |second_arg| < 1e-12 then 1 / 1e-12 else second_arg)

/-- The `np.max` over a list of reals (defined on nonempty lists; the `headD 0`
seed is irrelevant there since `max` is idempotent). -/
def npMax (l : List ℝ) : ℝ := l.foldl max (l.headD 0)

/-! ## Correction engine (converter/correction.py) -/

/-- The `beam_center` of `footprint_correction_two_slits` (correction.py):
`s2w - (s1w - s2w) * l2 / (l1 + l2)` with `l1, l2` the absolute slit
positions. -/
def beam_center (s : SlitData) : ℝ :=
  s.slit2_width -
    (s.slit1_width - s.slit2_width) * |s.slit2_position| /
      (|s.slit1_position| + |s.slit2_position|)

/-- The `beam_size` of `footprint_correction_two_slits` (correction.py):
`(s1w + s2w) * (l1 + l2) / (l1 - l2) - s1w`. -/
def beam_size (s : SlitData) : ℝ :=
  (s.slit1_width + s.slit2_width) *
      (|s.slit1_position| + |s.slit2_position|) /
      (|s.slit1_position| - |s.slit2_position|) -
    s.slit1_width

/-- The `full_beam` of `footprint_correction_two_slits` (correction.py):
`beam_center + (beam_size - beam_center) / 2`. -/
def full_beam (s : SlitData) : ℝ :=
  beam_center s + (beam_size s - beam_center s) / 2

/-- The `scale_outer` of `footprint_correction_two_slits` (correction.py):
`(beam_size - beam_center) / 2 / full_beam`. -/
def scale_outer (s : SlitData) : ℝ :=
  (beam_size s - beam_center s) / 2 / full_beam s

/-- The `footprint_correction_two_slits` (correction.py): inverse of the
illuminated fraction of a sample of length `sample_length` under a
trapezoidal two-slit beam profile, for an incident angle in degrees. -/
def footprint_correction_two_slits (angle_deg : ℝ) (slits_data : SlitData)
    (sample_length : ℝ) : ℝ :=
  let theta := radians angle_deg
  let theta2 := Real.arcsin (beam_center slits_data / sample_length)
  let theta3 := Real.arcsin (beam_size slits_data / sample_length)
  let correction_factor :=
    if theta < theta3 then
      if theta < theta2 then (1 - scale_outer slits_data) * theta / theta2
      else
        (1 - scale_outer slits_data) +
          (1 - (theta - theta3) ^ 2 / (theta3 - theta2) ^ 2) *
            scale_outer slits_data
    else 1
  1 / correction_factor

/-- The path length through the sample computed inside `absorption_correction`
(correction.py): `length / cos θ` below the critical angle
`arctan (2·thickness/length)` and `2·thickness / sin θ` above it, with the
trig denominators clamped from below at `1e-6` (`np.clip(_, 1e-6, None)`). -/
def absorption_path (theta_deg : ℝ) (sample : SampleData) : ℝ :=
  let theta := radians theta_deg
  let theta1 := Real.arctan (sample.thickness / sample.length * 2)
  let sin_theta := max 1e-6 (Real.sin theta)
  let cos_theta := max 1e-6 (Real.cos theta)
  if theta < theta1 then sample.length / cos_theta
  else 2 * sample.thickness / sin_theta

/-- The `absorption_correction` (correction.py): attenuation factor
`exp (-mu * lamda * path_length)` for an incident angle in degrees. -/
def absorption_correction (theta_deg lamda mu : ℝ) (sample : SampleData) : ℝ :=
  Real.exp (-mu * lamda * absorption_path theta_deg sample)

/-! ## Q-resolution calculator (converter/calulation.py) -/

/-- The `q_with_resolution_from_slits` (calulation.py), for a single angle in
degrees: momentum transfer `q = (4π/λ)·sin θ` and its resolution
`dq = q·sqrt((Δλ/λ)² + (Δθ/tan θ)²)` with `Δθ = (S1+S2)/(2·L12)` and
`L12 = |slit1_position - slit2_position|`. -/
def q_with_resolution_from_slits (theta_deg lamda : ℝ) (slits_data : SlitData)
    (dlam_rel : ℝ) : ℝ × ℝ :=
  let S1 := slits_data.slit1_width
  let S2 := slits_data.slit2_width
  let L12 := |slits_data.slit1_position - slits_data.slit2_position|
  let theta_rad := radians theta_deg
  let q := 4 * Real.pi / lamda * Real.sin theta_rad
  let dtheta := (S1 + S2) / (2 * L12)
  let rel_dtheta := dtheta / Real.tan theta_rad
  let rel_dq := Real.sqrt (dlam_rel ^ 2 + rel_dtheta ^ 2)
  (q, q * rel_dq)

/-! ## Detector-data extraction (reduction.py, `DataReduction.__get_detector_data`) -/

/-- Raw counts delivered by the metadata provider: a 1-D series for a point
detector, a series of 2-D frames for the `"2Ddata"` detector. -/
inductive RawCounts where
  | point (counts : List ℝ)
  | psd (frames : List (ℕ → ℕ → ℝ))

/-- Number of pixels of a region: `(y_max - y_min + 1) * (x_max - x_min + 1)`. -/
def pixel_num (r : Region) : ℕ :=
  (r.y_max - r.y_min + 1) * (r.x_max - r.x_min + 1)

/-- Sum of a 2-D frame over a rectangular region (inclusive bounds, mirroring
the Python slices `y_min : y_max + 1`, `x_min : x_max + 1`). -/
def region_sum (frame : ℕ → ℕ → ℝ) (r : Region) : ℝ :=
  ∑ y in Finset.Icc r.y_min r.y_max, ∑ x in Finset.Icc r.x_min r.x_max, frame y x

/-- The `extract_region_mean` (reduction.py): per frame, the region average
`sum / pixel_num` and its Poisson uncertainty `sqrt sum / pixel_num`. -/
def extract_region_mean (frames : List (ℕ → ℕ → ℝ)) (roi : Region) :
    List ℝ × List ℝ :=
  (frames.map fun f => region_sum f roi / (pixel_num roi : ℝ),
   frames.map fun f => Real.sqrt (region_sum f roi) / (pixel_num roi : ℝ))

/-- The `regions_overlap` (reduction.py): interval test
`not (y2_max < y1_min or y2_min > y1_max or x2_max < x1_min or x2_min > x1_max)`. -/
def regions_overlap (region1 region2 : Region) : Bool :=
  !(region2.y_max < region1.y_min || region2.y_min > region1.y_max ||
    region2.x_max < region1.x_min || region2.x_min > region1.x_max)

/-- The boolean mask built in the overlap branch of `__get_detector_data`:
all-True with the signal rectangle set to False. -/
def signal_mask (region : Region) (y x : ℕ) : Bool :=
  !(decide (region.y_min ≤ y ∧ y ≤ region.y_max ∧
            region.x_min ≤ x ∧ x ≤ region.x_max))

/-- Sum of the masked pixels of one frame restricted to the background
rectangle (`np.sum(frame[masked_mask])`). -/
def masked_sum (frame : ℕ → ℕ → ℝ) (rb : Region) (mask : ℕ → ℕ → Bool) : ℝ :=
  ∑ y in Finset.Icc rb.y_min rb.y_max, ∑ x in Finset.Icc rb.x_min rb.x_max,
    if mask y x then frame y x else 0

/-- Number of True mask entries inside the background rectangle
(`np.sum(masked_mask)`). -/
def masked_count (rb : Region) (mask : ℕ → ℕ → Bool) : ℕ :=
  ∑ y in Finset.Icc rb.y_min rb.y_max, ∑ x in Finset.Icc rb.x_min rb.x_max,
    if mask y x then 1 else 0

/-- The `DataReduction.__get_detector_data` (reduction.py): signal, background,
signal uncertainty and background uncertainty for one channel.  For a
non-`"2Ddata"` detector the signal is the raw counts with `sqrt` Poisson
uncertainty and the background arrays are zero (`np.zeros_like(counts)`).
For the 2-D detector the signal is the ROI average; if region-mode
background is requested the background comes from the background rectangle,
with the pixels of the signal rectangle masked out when the two rectangles
overlap.  (In the 2-D branch without region background the Python
`np.zeros_like(counts)` is a 3-D zero array; it is modelled here by a zero
list of the same frame count — every entry is zero either way.)  `none`
models the `TypeError` Python would raise when a needed region is `None`. -/
def get_detector_data (p : CorrectionParameters) (counts : RawCounts) :
    Option (List ℝ × List ℝ × List ℝ × List ℝ) :=
  if p.data_source.detector ≠ "2Ddata" then
    match counts with
    | .point c =>
        some (c, List.replicate c.length 0, c.map Real.sqrt,
              List.replicate c.length 0)
    | .psd _ => none
  else
    match counts, p.data_source.region with
    | .psd frames, some region =>
        let se := extract_region_mean frames region
        if p.background.use_correction = true ∧
            p.background.correction_type = BackgroundTypeCorrection.psdRegion then
          match p.background.region with
          | some region_background =>
              if regions_overlap region region_background then
                some (se.1,
                      frames.map fun f =>
                        masked_sum f region_background (signal_mask region) /
                          (masked_count region_background (signal_mask region) : ℝ),
                      se.2,
                      frames.map fun f =>
                        Real.sqrt (masked_sum f region_background (signal_mask region)) /
                          (masked_count region_background (signal_mask region) : ℝ))
              else
                let b := extract_region_mean frames region_background
                some (se.1, b.1, se.2, b.2)
          | none => none
        else
          some (se.1, List.replicate frames.length 0, se.2,
                List.replicate frames.length 0)
    | .point _, _ => none
    | .psd _, none => none

/-! ## Reduction orchestrator (reduction.py, `DataReduction.__calculate`) -/

/-- The `DataReduction.__correction` (reduction.py): per-point multiplicative
correction coefficient, starting at 1, multiplied by the footprint and
absorption corrections when enabled; requesting the (unimplemented)
polarisation correction raises `NotImplementedError`. -/
def correction (p : CorrectionParameters) (ds : DataSet) :
    Except PyError (List ℝ) :=
  let c0 : List ℝ := List.replicate ds.counts.length 1
  let c1 :=
    if p.reduction.foot_print_correction = true then
      List.zipWith (· * ·) c0
        (ds.theta.map fun t =>
          footprint_correction_two_slits t
            ds.measurement.instrument_settings.slit_configuration
            ds.header.sample.length)
    else c0
  let mu :=
    match p.reduction.mu_type with
    | AdsorptionTypeCorrection.constValue => p.reduction.mu_value
    | AdsorptionTypeCorrection.typical => p.reduction.mu_enum.value
  let c2 :=
    if p.reduction.absorption_correction = true then
      List.zipWith (· * ·) c1
        (ds.theta.map fun t =>
          absorption_correction t
            ds.measurement.instrument_settings.wavelength mu
            ds.header.sample)
    else c1
  if p.reduction.polarisation_correction = true then
    Except.error (PyError.notImplementedError none)
  else Except.ok c2

/-- The `DataReduction.__normalisation` (reduction.py): per-point normalisation
coefficient, starting at 1, divided (via `safety_div`) by the monitor and
time arrays when the respective toggles are enabled. -/
def normalisation (p : CorrectionParameters) (ds : DataSet) : List ℝ :=
  let n0 : List ℝ := List.replicate ds.counts.length 1
  let n1 :=
    if p.normalisation.monitor = true then
      List.zipWith safety_div n0 ds.monitor
    else n0
  if p.normalisation.time = true then
    List.zipWith safety_div n1 ds.time
  else n1

/-- The `DataReduction.__background_correction` (reduction.py): when background
correction is enabled, constant mode subtracts a fixed value from `R`;
file mode raises `NotImplementedError`; region mode subtracts
`background * norm_coefficient` from `R` and combines the uncertainties in
quadrature. -/
def background_correction (p : CorrectionParameters) (ds : DataSet)
    (norm_coefficient R dR : List ℝ) : Except PyError (List ℝ × List ℝ) :=
  if p.background.use_correction = true then
    let R1 :=
      if p.background.correction_type = BackgroundTypeCorrection.constValue then
        R.map (· - p.background.value)
      else R
    if p.background.correction_type = BackgroundTypeCorrection.extraFile then
      Except.error (PyError.notImplementedError none)
    else if p.background.correction_type = BackgroundTypeCorrection.psdRegion then
      Except.ok
        (List.zipWith (· - ·) R1 (List.zipWith (· * ·) ds.background norm_coefficient),
         List.zipWith (fun d e => Real.sqrt (d ^ 2 + e ^ 2)) dR
           (List.zipWith (· * ·) ds.e_background norm_coefficient))
    else Except.ok (R1, dR)
  else Except.ok (R, dR)

/-- The `DataReduction.__intensity_correction` (reduction.py): when intensity
normalisation is enabled, constant mode divides `R` and `dR` by the
configured value and per-dataset-maximum mode divides them by `max R`. -/
def intensity_correction (p : CorrectionParameters) (R dR : List ℝ) :
    List ℝ × List ℝ :=
  if p.normalisation.intensity_norm = true then
    let rd :=
      if p.normalisation.intensity_norm_type = IntensityTypeCorrection.constValue then
        (R.map (· / p.normalisation.intensity_value),
         dR.map (· / p.normalisation.intensity_value))
      else (R, dR)
    if p.normalisation.intensity_norm_type = IntensityTypeCorrection.maxValue then
      let max_value := npMax rd.1
      (rd.1.map (· / max_value), rd.2.map (· / max_value))
    else rd
  else (R, dR)

/-- One channel of the per-dataset loop of `__calculate`, up to and including
the background adjustment (steps Q/ΔQ, correction coefficient,
normalisation coefficient, `R = counts·corr·norm`,
`dR = e_counts·corr·norm`, background correction). -/
def channel_base (p : CorrectionParameters) (dlam_rel : ℝ) (ds : DataSet) :
    Except PyError DataSetOutput :=
  let qdq := ds.theta.map fun t =>
    q_with_resolution_from_slits t
      ds.measurement.instrument_settings.wavelength
      ds.measurement.instrument_settings.slit_configuration dlam_rel
  match correction p ds with
  | Except.error e => Except.error e
  | Except.ok corr_coefficient =>
    let norm_coefficient := normalisation p ds
    let R := List.zipWith (· * ·)
      (List.zipWith (· * ·) ds.counts corr_coefficient) norm_coefficient
    let dR := List.zipWith (· * ·)
      (List.zipWith (· * ·) ds.e_counts corr_coefficient) norm_coefficient
    match background_correction p ds norm_coefficient R dR with
    | Except.error e => Except.error e
    | Except.ok rd =>
        Except.ok ⟨qdq.map Prod.fst, qdq.map Prod.snd, rd.1, rd.2⟩

/-- One full iteration of the per-dataset loop of `__calculate`:
`channel_base` followed by the per-channel intensity correction. -/
def channel_calc (p : CorrectionParameters) (dlam_rel : ℝ) (ds : DataSet) :
    Except PyError DataSetOutput :=
  match channel_base p dlam_rel ds with
  | Except.error e => Except.error e
  | Except.ok o =>
      let rd := intensity_correction p o.R o.dR
      Except.ok { o with R := rd.1, dR := rd.2 }

/-- Sequential loop over the datasets, stopping at the first raised
exception (the Python `for dataset in self.data_list` loop). -/
def mapExcept (f : α → Except ε β) : List α → Except ε (List β)
  | [] => Except.ok []
  | a :: as =>
    match f a with
    | Except.error e => Except.error e
    | Except.ok b =>
      match mapExcept f as with
      | Except.error e => Except.error e
      | Except.ok bs => Except.ok (b :: bs)

/-- The global-maximum rescale of `__calculate`: divide every channel's `R`
and `dR` by the maximum `R` across all channels. -/
def global_rescale (outs : List DataSetOutput) : List DataSetOutput :=
  let max_value := npMax (outs.map fun o => npMax o.R)
  outs.map fun o =>
    { o with R := o.R.map (· / max_value), dR := o.dR.map (· / max_value) }

/-- The `DataReduction.__calculate` (reduction.py): run the per-channel loop,
then — keyed on the intensity mode alone — apply the global-maximum rescale,
and finally fail on the unimplemented region-derived intensity mode. -/
def calculate (p : CorrectionParameters) (dlam_rel : ℝ) (data_list : List DataSet) :
    Except PyError (List DataSetOutput) :=
  match mapExcept (channel_calc p dlam_rel) data_list with
  | Except.error e => Except.error e
  | Except.ok outs =>
    let outs1 :=
      if p.normalisation.intensity_norm_type = IntensityTypeCorrection.maxValueGlobal then
        global_rescale outs
      else outs
    if p.normalisation.intensity_norm_type = IntensityTypeCorrection.psdRegion then
      Except.error (PyError.notImplementedError
        (some "IntensityTypeCorrection.psdRegion is not implemented yet"))
    else Except.ok outs1

/-- Projection of the reduction result onto the per-channel `R` arrays
(empty on failure). -/
def getR : Except PyError (List DataSetOutput) → List (List ℝ)
  | Except.ok outs => outs.map DataSetOutput.R
  | Except.error _ => []

/-- Projection of the reduction result onto the per-channel `dR` arrays
(empty on failure). -/
def getdR : Except PyError (List DataSetOutput) → List (List ℝ)
  | Except.ok outs => outs.map DataSetOutput.dR
  | Except.error _ => []

/-! ## Configuration validation (converter/check_config.py) -/

/-- The `check_config` (check_config.py): fail on an unknown detector name, on
the 2-D detector without a region, on region-mode background combined with
the 2-D detector, and on region-mode background without a background
region. -/
def check_config (p : CorrectionParameters) (detectors_list : List String) :
    Except PyError Unit :=
  if p.data_source.detector ∉ detectors_list then
    Except.error (PyError.valueError "Wrong detector name")
  else if p.data_source.detector = "2Ddata" ∧ p.data_source.region = none then
    Except.error (PyError.valueError "Region should be set")
  else if p.background.use_correction = true ∧
      p.background.correction_type = BackgroundTypeCorrection.psdRegion then
    if p.data_source.detector = "2Ddata" then
      Except.error (PyError.valueError
        "The background correction request 2Ddata detector name")
    else if p.background.region = none then
      Except.error (PyError.valueError "Background region should be set")
    else Except.ok ()
  else Except.ok ()

/-! ## Polarisation channels (converter/utils.py, `get_polarisation`)

`get_polarisation` reads the module constant `POLARISATION_DEVICES` from
`converter/config.py`, which is not part of the sources. -/

/-- The per-device state tuple of `get_polarisation` (utils.py):
`('m', 'p')` when the device is an active scan device, `('o', 'o')`
otherwise. -/
def pol_states (present : Bool) : List String :=
  if present then ["m", "p"] else ["o", "o"]

/-- Core of `get_polarisation` (utils.py) for two polarisation devices whose
presence among the scan devices is `b1`, `b2`: all concatenations of the
per-device state tuples, with the all-don't-care code `"oo"` filtered out and
duplicates removed (the Python set), falling back to the `"unpolarized"`
channel when nothing remains. -/
def get_polarisation_core (b1 b2 : Bool) : List String :=
  let res1 := pol_states b1
  let res2 := pol_states b2
  let combinations :=
    (((res1.product res2).map fun q => q.1 ++ q.2).filter fun c => c ≠ "oo").dedup
  if combinations.isEmpty then ["unpolarized"] else combinations

/-- The `get_polarisation` (utils.py).  Modelled from the spec: the constant
`POLARISATION_DEVICES` lives in the missing `converter/config.py`; per the
spec's channel codes (two-character codes over the states m/p/o, matching
`PolarizationEnum` in datatypes.py) it is a list of two spin-manipulating
device names, modelled here as the parameters `dev1`, `dev2`. -/
def get_polarisation (dev1 dev2 : String) (dev_list : List String) : List String :=
  get_polarisation_core (decide (dev1 ∈ dev_list)) (decide (dev2 ∈ dev_list))

end

/-! ## Theorems -/

/-- C6: for every angle θ in degrees, wavelength λ, slit geometry and
relative wavelength spread Δλ/λ, the Q-resolution calculator returns
`Q = (4π/λ)·sin θ` and `dQ = Q·sqrt((Δλ/λ)² + (Δθ/tan θ)²)` with
`Δθ = (S1+S2)/(2·L12)` and `L12` the absolute difference of the two slit
positions. -/
theorem q_with_resolution_formula (theta_deg lamda dlam_rel : ℝ) (s : SlitData) :
    (q_with_resolution_from_slits theta_deg lamda s dlam_rel).1 =
      4 * Real.pi / lamda * Real.sin (radians theta_deg) ∧
    (q_with_resolution_from_slits theta_deg lamda s dlam_rel).2 =
      (4 * Real.pi / lamda * Real.sin (radians theta_deg)) *
        Real.sqrt (dlam_rel ^ 2 +
          ((s.slit1_width + s.slit2_width) /
                (2 * |s.slit1_position - s.slit2_position|) /
              Real.tan (radians theta_deg)) ^ 2) := by
  exact ⟨rfl, rfl⟩

/-- C5: for every angle θ, nonnegative wavelength λ, nonnegative absorption
coefficient μ and sample with positive length and thickness, the absorption
correction lies in `(0, 1]`, is monotonically non-increasing in μ and in λ,
and uses the path length `length / cos θ` below the critical angle
`arctan (2·thickness/length)` and `2·thickness / sin θ` above it, with the
trig denominators clamped from below at `1e-6`. -/
theorem absorption_correction_props (theta_deg lamda mu : ℝ) (sample : SampleData)
    (hlam : 0 ≤ lamda) (hmu : 0 ≤ mu)
    (hlen : 0 < sample.length) (hthick : 0 < sample.thickness) :
    (0 < absorption_correction theta_deg lamda mu sample ∧
      absorption_correction theta_deg lamda mu sample ≤ 1) ∧
    (∀ mu2, mu ≤ mu2 →
      absorption_correction theta_deg lamda mu2 sample ≤
        absorption_correction theta_deg lamda mu sample) ∧
    (∀ lamda2, lamda ≤ lamda2 →
      absorption_correction theta_deg lamda2 mu sample ≤
        absorption_correction theta_deg lamda mu sample) ∧
    (radians theta_deg < Real.arctan (sample.thickness / sample.length * 2) →
      absorption_correction theta_deg lamda mu sample =
        Real.exp (-mu * lamda *
          (sample.length / max 1e-6 (Real.cos (radians theta_deg))))) ∧
    (Real.arctan (sample.thickness / sample.length * 2) ≤ radians theta_deg →
      absorption_correction theta_deg lamda mu sample =
        Real.exp (-mu * lamda *
          (2 * sample.thickness / max 1e-6 (Real.sin (radians theta_deg))))) := by
  have hclip : ∀ y : ℝ, (0:ℝ) < max 1e-6 y := fun y =>
    lt_of_lt_of_le (by norm_num) (le_max_left _ _)
  have hpath : 0 < absorption_path theta_deg sample := by
    simp only [absorption_path]
    split
    · exact div_pos hlen (hclip _)
    · exact div_pos (by linarith) (hclip _)
  refine ⟨⟨Real.exp_pos _, ?_⟩, ?_, ?_, ?_, ?_⟩
  · refine Real.exp_le_one_iff.mpr ?_
    nlinarith [mul_nonneg (mul_nonneg hmu hlam) hpath.le]
  · intro mu2 h
    refine Real.exp_le_exp.mpr ?_
    nlinarith [mul_nonneg (mul_nonneg (sub_nonneg.mpr h) hlam) hpath.le]
  · intro lamda2 h
    refine Real.exp_le_exp.mpr ?_
    nlinarith [mul_nonneg (mul_nonneg hmu (sub_nonneg.mpr h)) hpath.le]
  · intro h
    unfold absorption_correction absorption_path
    rw [if_pos h]
  · intro h
    unfold absorption_correction absorption_path
    rw [if_neg (not_lt.mpr h)]

/-- Witness for C5 at θ = 30°, λ = 1, μ = 0, a 10 mm × 1 mm sample, with one
monotonicity instance μ = 0 ≤ 1 evaluated. -/
theorem absorption_correction_props_witness :
    (0 ≤ (1:ℝ) ∧ 0 ≤ (0:ℝ) ∧ (0:ℝ) < 10 ∧ (0:ℝ) < 1) ∧
    (0 < absorption_correction 30 1 0 ⟨"s", 10, 1, 0⟩ ∧
      absorption_correction 30 1 0 ⟨"s", 10, 1, 0⟩ ≤ 1) ∧
    absorption_correction 30 1 1 ⟨"s", 10, 1, 0⟩ ≤
      absorption_correction 30 1 0 ⟨"s", 10, 1, 0⟩ := by
  have h := absorption_correction_props 30 1 0 ⟨"s", 10, 1, 0⟩
    (by norm_num) (by norm_num) (by norm_num) (by norm_num)
  exact ⟨⟨by norm_num, by norm_num, by norm_num, by norm_num⟩,
    h.1, h.2.1 1 (by norm_num)⟩

/-- C4: for a slit geometry whose derived beam centre and beam size satisfy
`0 < beam_center < beam_size ≤ sample_length` and any positive incident
angle, the footprint correction factor is at least 1, and it equals exactly 1
for every angle at or above the full-illumination threshold
`arcsin (beam_size / sample_length)`. -/
theorem footprint_correction_ge_one (angle_deg : ℝ) (s : SlitData)
    (sample_length : ℝ)
    (hangle : 0 < angle_deg)
    (hbc : 0 < beam_center s)
    (hbs : beam_center s < beam_size s)
    (hfit : beam_size s ≤ sample_length) :
    1 ≤ footprint_correction_two_slits angle_deg s sample_length ∧
    (Real.arcsin (beam_size s / sample_length) ≤ radians angle_deg →
      footprint_correction_two_slits angle_deg s sample_length = 1) := by
  have hlen : 0 < sample_length := lt_of_lt_of_le (hbc.trans hbs) hfit
  have htheta : 0 < radians angle_deg :=
    mul_pos hangle (div_pos Real.pi_pos (by norm_num))
  have htheta2 : 0 < Real.arcsin (beam_center s / sample_length) :=
    Real.arcsin_pos.mpr (div_pos hbc hlen)
  have h23 : Real.arcsin (beam_center s / sample_length) <
      Real.arcsin (beam_size s / sample_length) := by
    apply Real.strictMonoOn_arcsin
    · constructor
      · linarith [(div_pos hbc hlen).le]
      · exact ((div_le_one hlen).mpr (le_of_lt (lt_of_lt_of_le hbs hfit)))
    · constructor
      · linarith [(div_pos (hbc.trans hbs) hlen).le]
      · exact (div_le_one hlen).mpr hfit
    · exact (div_lt_div_iff_of_pos_right hlen).mpr hbs
  have hfull : 0 < full_beam s := by unfold full_beam; linarith
  have hso_pos : 0 < scale_outer s := by
    unfold scale_outer; exact div_pos (by linarith) hfull
  have hso_lt : scale_outer s < 1 := by
    unfold scale_outer
    rw [div_lt_one hfull]
    unfold full_beam
    linarith
  simp only [footprint_correction_two_slits]
  set θ := radians angle_deg with hθdef
  set θ2 := Real.arcsin (beam_center s / sample_length) with hθ2def
  set θ3 := Real.arcsin (beam_size s / sample_length) with hθ3def
  set so := scale_outer s with hsodef
  constructor
  · by_cases h3 : θ < θ3
    · rw [if_pos h3]
      by_cases h2 : θ < θ2
      · rw [if_pos h2]
        have hcf_pos : 0 < (1 - so) * θ / θ2 :=
          div_pos (mul_pos (by linarith) htheta) htheta2
        have hcf_le : (1 - so) * θ / θ2 ≤ 1 := by
          rw [div_le_one htheta2]
          nlinarith
        exact one_le_one_div hcf_pos hcf_le
      · rw [if_neg h2]
        push_neg at h2
        have hden : 0 < (θ3 - θ2) ^ 2 := pow_pos (by linarith) 2
        have hd0 : 0 ≤ (θ - θ3) ^ 2 / (θ3 - θ2) ^ 2 :=
          div_nonneg (sq_nonneg _) hden.le
        have hd1 : (θ - θ3) ^ 2 / (θ3 - θ2) ^ 2 ≤ 1 := by
          rw [div_le_one hden]
          apply sq_le_sq' <;> linarith
        have hcf_pos :
            0 < 1 - so + (1 - (θ - θ3) ^ 2 / (θ3 - θ2) ^ 2) * so := by nlinarith
        have hcf_le :
            1 - so + (1 - (θ - θ3) ^ 2 / (θ3 - θ2) ^ 2) * so ≤ 1 := by nlinarith
        exact one_le_one_div hcf_pos hcf_le
    · rw [if_neg h3]
      norm_num
  · intro hge
    rw [if_neg (not_lt.mpr hge)]
    norm_num

/-- Witness for C4: slit widths 1 mm at positions 2 mm and 1 mm give
`beam_center = 1`, `beam_size = 5`; on a 10 mm sample the correction is ≥ 1
at 30° and exactly 1 at 90° (which is at or above the full-illumination
threshold since `arcsin ≤ π/2`). -/
theorem footprint_correction_ge_one_witness :
    ((0:ℝ) < 30 ∧ 0 < beam_center ⟨1, 1, 2, 1⟩ ∧
      beam_center ⟨1, 1, 2, 1⟩ < beam_size ⟨1, 1, 2, 1⟩ ∧
      beam_size ⟨1, 1, 2, 1⟩ ≤ 10) ∧
    1 ≤ footprint_correction_two_slits 30 ⟨1, 1, 2, 1⟩ 10 ∧
    footprint_correction_two_slits 90 ⟨1, 1, 2, 1⟩ 10 = 1 := by
  have hbc : beam_center ⟨1, 1, 2, 1⟩ = 1 := by
    unfold beam_center; norm_num
  have hbs : beam_size ⟨1, 1, 2, 1⟩ = 5 := by
    unfold beam_size; norm_num
  have h1 := footprint_correction_ge_one 30 ⟨1, 1, 2, 1⟩ 10 (by norm_num)
    (by rw [hbc]; norm_num) (by rw [hbc, hbs]; norm_num) (by rw [hbs]; norm_num)
  have h2 := footprint_correction_ge_one 90 ⟨1, 1, 2, 1⟩ 10 (by norm_num)
    (by rw [hbc]; norm_num) (by rw [hbc, hbs]; norm_num) (by rw [hbs]; norm_num)
  refine ⟨⟨by norm_num, by rw [hbc]; norm_num, by rw [hbc, hbs]; norm_num,
    by rw [hbs]; norm_num⟩, h1.1, h2.2 ?_⟩
  have h90 : radians 90 = Real.pi / 2 := by unfold radians; ring
  rw [h90]
  exact Real.arcsin_le_pi_div_two _

/-- C7: configuration validation succeeds exactly when none of the four
error cases holds — unknown detector name; 2-D detector without a region;
region-mode background together with the 2-D detector; region-mode
background without a background region — and each case (under the
precedence of the earlier checks) produces its own distinct error. -/
theorem check_config_characterisation (p : CorrectionParameters)
    (detectors_list : List String) :
    (check_config p detectors_list = Except.ok () ↔
      ¬(p.data_source.detector ∉ detectors_list ∨
        (p.data_source.detector = "2Ddata" ∧ p.data_source.region = none) ∨
        (p.background.use_correction = true ∧
          p.background.correction_type = BackgroundTypeCorrection.psdRegion ∧
          p.data_source.detector = "2Ddata") ∨
        (p.background.use_correction = true ∧
          p.background.correction_type = BackgroundTypeCorrection.psdRegion ∧
          p.background.region = none))) ∧
    (p.data_source.detector ∉ detectors_list →
      check_config p detectors_list =
        Except.error (PyError.valueError "Wrong detector name")) ∧
    (p.data_source.detector ∈ detectors_list →
      p.data_source.detector = "2Ddata" → p.data_source.region = none →
      check_config p detectors_list =
        Except.error (PyError.valueError "Region should be set")) ∧
    (p.data_source.detector ∈ detectors_list →
      p.data_source.region ≠ none →
      p.background.use_correction = true →
      p.background.correction_type = BackgroundTypeCorrection.psdRegion →
      p.data_source.detector = "2Ddata" →
      check_config p detectors_list =
        Except.error (PyError.valueError
          "The background correction request 2Ddata detector name")) ∧
    (p.data_source.detector ∈ detectors_list →
      p.data_source.detector ≠ "2Ddata" →
      p.background.use_correction = true →
      p.background.correction_type = BackgroundTypeCorrection.psdRegion →
      p.background.region = none →
      check_config p detectors_list =
        Except.error (PyError.valueError "Background region should be set")) := by
  refine ⟨?_, ?_, ?_, ?_, ?_⟩
  · unfold check_config
    split_ifs with h1 h2 h3 h4 h5 <;> simp <;> tauto
  · intro h
    simp [check_config, h]
  · intro h h2d hreg
    rw [h2d] at h
    simp [check_config, h, h2d, hreg]
  · intro h hreg huse hty h2d
    rw [h2d] at h
    simp [check_config, h, h2d, hreg, huse, hty]
  · intro h h2d huse hty hreg
    simp [check_config, h, h2d, hreg, huse, hty]

/-- Witness for C7: a detector list `["counter", "2Ddata"]` with five
concrete configurations — unknown detector, 2-D without region, 2-D with
region-mode background, point detector with region-mode background but no
background region, and a valid point-detector configuration. -/
theorem check_config_characterisation_witness :
    check_config
        ⟨⟨"foo", none⟩, ⟨true, true, true, IntensityTypeCorrection.constValue, 1, 1, none⟩,
          ⟨false, BackgroundTypeCorrection.constValue, none, 0, none⟩,
          ⟨false, false, false, AdsorptionTypeCorrection.constValue, MuDataEnum.glass, 0⟩, ""⟩
        ["counter", "2Ddata"] =
      Except.error (PyError.valueError "Wrong detector name") ∧
    check_config
        ⟨⟨"2Ddata", none⟩, ⟨true, true, true, IntensityTypeCorrection.constValue, 1, 1, none⟩,
          ⟨false, BackgroundTypeCorrection.constValue, none, 0, none⟩,
          ⟨false, false, false, AdsorptionTypeCorrection.constValue, MuDataEnum.glass, 0⟩, ""⟩
        ["counter", "2Ddata"] =
      Except.error (PyError.valueError "Region should be set") ∧
    check_config
        ⟨⟨"2Ddata", some ⟨0, 1, 0, 1⟩⟩,
          ⟨true, true, true, IntensityTypeCorrection.constValue, 1, 1, none⟩,
          ⟨true, BackgroundTypeCorrection.psdRegion, none, 0, some ⟨2, 3, 2, 3⟩⟩,
          ⟨false, false, false, AdsorptionTypeCorrection.constValue, MuDataEnum.glass, 0⟩, ""⟩
        ["counter", "2Ddata"] =
      Except.error (PyError.valueError
        "The background correction request 2Ddata detector name") ∧
    check_config
        ⟨⟨"counter", none⟩, ⟨true, true, true, IntensityTypeCorrection.constValue, 1, 1, none⟩,
          ⟨true, BackgroundTypeCorrection.psdRegion, none, 0, none⟩,
          ⟨false, false, false, AdsorptionTypeCorrection.constValue, MuDataEnum.glass, 0⟩, ""⟩
        ["counter", "2Ddata"] =
      Except.error (PyError.valueError "Background region should be set") ∧
    check_config
        ⟨⟨"counter", none⟩, ⟨true, true, true, IntensityTypeCorrection.constValue, 1, 1, none⟩,
          ⟨false, BackgroundTypeCorrection.constValue, none, 0, none⟩,
          ⟨false, false, false, AdsorptionTypeCorrection.constValue, MuDataEnum.glass, 0⟩, ""⟩
        ["counter", "2Ddata"] = Except.ok () := by
  refine ⟨(check_config_characterisation _ _).2.1 (by simp),
    (check_config_characterisation _ _).2.2.1 (by simp) rfl rfl,
    (check_config_characterisation _ _).2.2.2.1 (by simp) (by simp) rfl rfl rfl,
    (check_config_characterisation _ _).2.2.2.2 (by simp) (by simp) rfl rfl rfl,
    (check_config_characterisation _ _).1.mpr (by simp)⟩

/-- Modelled from the spec: the admissible state symbols of one
spin-manipulating device in a channel code — its two states `m`/`p` when the
device is among the active scan devices, the single don't-care symbol `o`
when it is absent. -/
def spec_device_states (present : Bool) : List String :=
  if present then ["m", "p"] else ["o"]

/-- C9: for every list of active scan-device names, the derived list of
polarization channels is non-empty and duplicate-free, it contains the
`"unpolarized"` channel exactly when neither polarisation device appears in
the list, and when at least one device appears it consists of all channel
codes that combine each present device's two states with don't-care for
absent devices. -/
theorem get_polarisation_channels (dev1 dev2 : String) (dev_list : List String) :
    get_polarisation dev1 dev2 dev_list ≠ [] ∧
    (get_polarisation dev1 dev2 dev_list).Nodup ∧
    ("unpolarized" ∈ get_polarisation dev1 dev2 dev_list ↔
      (dev1 ∉ dev_list ∧ dev2 ∉ dev_list)) ∧
    ((dev1 ∈ dev_list ∨ dev2 ∈ dev_list) →
      ∀ c, c ∈ get_polarisation dev1 dev2 dev_list ↔
        c ∈ ((spec_device_states (decide (dev1 ∈ dev_list))).product
              (spec_device_states (decide (dev2 ∈ dev_list)))).map
            fun q => q.1 ++ q.2) := by
  by_cases h1 : dev1 ∈ dev_list <;> by_cases h2 : dev2 ∈ dev_list
  · have e : get_polarisation dev1 dev2 dev_list = ["mm", "mp", "pm", "pp"] := by
      unfold get_polarisation
      rw [decide_eq_true h1, decide_eq_true h2]
      decide
    rw [e]
    refine ⟨by decide, by decide, ⟨fun hm => absurd hm (by decide),
      fun hc => absurd h1 hc.1⟩, fun _ c => ?_⟩
    rw [decide_eq_true h1, decide_eq_true h2,
      show ((spec_device_states true).product (spec_device_states true)).map
          (fun q => q.1 ++ q.2) = ["mm", "mp", "pm", "pp"] from by decide]
  · have e : get_polarisation dev1 dev2 dev_list = ["mo", "po"] := by
      unfold get_polarisation
      rw [decide_eq_true h1, decide_eq_false h2]
      decide
    rw [e]
    refine ⟨by decide, by decide, ⟨fun hm => absurd hm (by decide),
      fun hc => absurd h1 hc.1⟩, fun _ c => ?_⟩
    rw [decide_eq_true h1, decide_eq_false h2,
      show ((spec_device_states true).product (spec_device_states false)).map
          (fun q => q.1 ++ q.2) = ["mo", "po"] from by decide]
  · have e : get_polarisation dev1 dev2 dev_list = ["om", "op"] := by
      unfold get_polarisation
      rw [decide_eq_false h1, decide_eq_true h2]
      decide
    rw [e]
    refine ⟨by decide, by decide, ⟨fun hm => absurd hm (by decide),
      fun hc => absurd h2 hc.2⟩, fun _ c => ?_⟩
    rw [decide_eq_false h1, decide_eq_true h2,
      show ((spec_device_states false).product (spec_device_states true)).map
          (fun q => q.1 ++ q.2) = ["om", "op"] from by decide]
  · have e : get_polarisation dev1 dev2 dev_list = ["unpolarized"] := by
      unfold get_polarisation
      rw [decide_eq_false h1, decide_eq_false h2]
      decide
    rw [e]
    exact ⟨by decide, by decide, ⟨fun _ => ⟨h1, h2⟩, fun _ => by decide⟩,
      fun hor => absurd hor (by tauto)⟩

/-- Witness for C9 with device `"p1"` active and device `"p2"` absent,
evaluating the membership characterisation at the channel code `"mo"`. -/
theorem get_polarisation_channels_witness :
    get_polarisation "p1" "p2" ["p1", "theta"] ≠ [] ∧
    ("mo" ∈ get_polarisation "p1" "p2" ["p1", "theta"] ↔
      "mo" ∈ ((spec_device_states (decide ("p1" ∈ (["p1", "theta"] : List String)))).product
            (spec_device_states (decide ("p2" ∈ (["p1", "theta"] : List String))))).map
          fun q => q.1 ++ q.2) := by
  have h := get_polarisation_channels "p1" "p2" ["p1", "theta"]
  exact ⟨h.1, h.2.2.2 (Or.inl (by decide)) "mo"⟩

/-! ### Elementwise list lemmas shared by the orchestrator theorems -/

/-- The `zipWith` of two equal-length constant arrays is constant. -/
theorem zipWith_replicate_both (f : ℝ → ℝ → ℝ) (a b : ℝ) :
    ∀ n, List.zipWith f (List.replicate n a) (List.replicate n b) =
      List.replicate n (f a b)
  | 0 => rfl
  | n + 1 => by
    simp only [List.replicate_succ, List.zipWith_cons_cons]
    rw [zipWith_replicate_both f a b n]

/-- Multiplying a zero array elementwise by any equal-length array gives the
zero array. -/
theorem zipWith_mul_zero_left (l : List ℝ) (n : ℕ) (h : l.length = n) :
    List.zipWith (· * ·) (List.replicate n (0:ℝ)) l = List.replicate n 0 := by
  induction l generalizing n with
  | nil => subst h; rfl
  | cons x xs ih =>
    subst h
    simp only [List.length_cons, List.replicate_succ, List.zipWith_cons_cons]
    rw [ih xs.length rfl, zero_mul]

/-- Subtracting an equal-length zero array elementwise is the identity. -/
theorem zipWith_sub_zero_right (l : List ℝ) (n : ℕ) (h : l.length = n) :
    List.zipWith (· - ·) l (List.replicate n (0:ℝ)) = l := by
  induction l generalizing n with
  | nil => subst h; rfl
  | cons x xs ih =>
    subst h
    simp only [List.length_cons, List.replicate_succ, List.zipWith_cons_cons]
    rw [ih xs.length rfl, sub_zero]

/-- Quadrature combination with an equal-length zero array is the identity on
arrays with nonnegative entries. -/
theorem zipWith_quadrature_zero (l : List ℝ) (n : ℕ) (h : l.length = n)
    (hnn : ∀ x ∈ l, 0 ≤ x) :
    List.zipWith (fun d e => Real.sqrt (d ^ 2 + e ^ 2)) l
      (List.replicate n (0:ℝ)) = l := by
  induction l generalizing n with
  | nil => subst h; rfl
  | cons x xs ih =>
    subst h
    simp only [List.length_cons, List.replicate_succ, List.zipWith_cons_cons]
    rw [ih xs.length rfl fun y hy => hnn y (List.mem_cons_of_mem x hy)]
    have hx : 0 ≤ x := hnn x (List.mem_cons_self x xs)
    rw [show (0:ℝ) ^ 2 = 0 by norm_num, add_zero, Real.sqrt_sq hx]

/-- C10: for a point (non-2D) detector the extracted background estimate and
background uncertainty are identically zero arrays, and consequently the
region-mode background-adjustment stage applied to such zero background
arrays returns `R` and `dR` exactly unchanged (the uncertainties being
nonnegative, as Poisson uncertainties are). -/
theorem point_detector_background_noop :
    (∀ (p : CorrectionParameters) (c : List ℝ),
      p.data_source.detector ≠ "2Ddata" →
      get_detector_data p (RawCounts.point c) =
        some (c, List.replicate c.length 0, c.map Real.sqrt,
              List.replicate c.length 0)) ∧
    (∀ (p : CorrectionParameters) (ds : DataSet) (norm_coefficient R dR : List ℝ),
      p.background.use_correction = true →
      p.background.correction_type = BackgroundTypeCorrection.psdRegion →
      ds.background = List.replicate norm_coefficient.length 0 →
      ds.e_background = List.replicate norm_coefficient.length 0 →
      R.length = norm_coefficient.length →
      dR.length = norm_coefficient.length →
      (∀ x ∈ dR, 0 ≤ x) →
      background_correction p ds norm_coefficient R dR = Except.ok (R, dR)) := by
  constructor
  · intro p c h
    simp [get_detector_data, h]
  · intro p ds norm_coefficient R dR huse hty hbgz hebgz hR hdR hnn
    have hc : ¬(p.background.correction_type = BackgroundTypeCorrection.constValue) := by
      rw [hty]; decide
    have he : ¬(p.background.correction_type = BackgroundTypeCorrection.extraFile) := by
      rw [hty]; decide
    simp only [background_correction]
    rw [if_pos huse, if_neg hc, if_neg he, if_pos hty, hbgz, hebgz,
      zipWith_mul_zero_left norm_coefficient _ rfl,
      zipWith_sub_zero_right R _ hR,
      zipWith_quadrature_zero dR _ hdR hnn]

/-- Witness for C10: a point detector named `"counter"` with counts
`[4, 9]`, and the background stage applied to `R = [2, 3]`, `dR = [1, 2]`
with zero background arrays and unit normalisation. -/
theorem point_detector_background_noop_witness :
    get_detector_data
        ⟨⟨"counter", none⟩, ⟨true, true, true, IntensityTypeCorrection.constValue, 1, 1, none⟩,
          ⟨true, BackgroundTypeCorrection.psdRegion, none, 0, some ⟨0, 1, 0, 1⟩⟩,
          ⟨false, false, false, AdsorptionTypeCorrection.constValue, MuDataEnum.glass, 0⟩, ""⟩
        (RawCounts.point [4, 9]) =
      some ([4, 9], [0, 0], [Real.sqrt 4, Real.sqrt 9], [0, 0]) ∧
    background_correction
        ⟨⟨"counter", none⟩, ⟨true, true, true, IntensityTypeCorrection.constValue, 1, 1, none⟩,
          ⟨true, BackgroundTypeCorrection.psdRegion, none, 0, some ⟨0, 1, 0, 1⟩⟩,
          ⟨false, false, false, AdsorptionTypeCorrection.constValue, MuDataEnum.glass, 0⟩, ""⟩
        ⟨⟨⟨"o", "a"⟩, ⟨"t", "i"⟩, ⟨"s", 10, 1, 0⟩⟩,
          ⟨⟨(0, 2), "deg", 4.5, ⟨1, 1, 2, 1⟩⟩, ["f"]⟩,
          [1, 2], [1, 1], [1, 1], [4, 9], [2, 3], [0, 0], [0, 0]⟩
        [1, 1] [2, 3] [1, 2] = Except.ok ([2, 3], [1, 2]) := by
  constructor
  · have h := point_detector_background_noop.1
      ⟨⟨"counter", none⟩, ⟨true, true, true, IntensityTypeCorrection.constValue, 1, 1, none⟩,
        ⟨true, BackgroundTypeCorrection.psdRegion, none, 0, some ⟨0, 1, 0, 1⟩⟩,
        ⟨false, false, false, AdsorptionTypeCorrection.constValue, MuDataEnum.glass, 0⟩, ""⟩
      [4, 9] (by simp)
    exact h
  · have h := point_detector_background_noop.2
      ⟨⟨"counter", none⟩, ⟨true, true, true, IntensityTypeCorrection.constValue, 1, 1, none⟩,
        ⟨true, BackgroundTypeCorrection.psdRegion, none, 0, some ⟨0, 1, 0, 1⟩⟩,
        ⟨false, false, false, AdsorptionTypeCorrection.constValue, MuDataEnum.glass, 0⟩, ""⟩
      ⟨⟨⟨"o", "a"⟩, ⟨"t", "i"⟩, ⟨"s", 10, 1, 0⟩⟩,
        ⟨⟨(0, 2), "deg", 4.5, ⟨1, 1, 2, 1⟩⟩, ["f"]⟩,
        [1, 2], [1, 1], [1, 1], [4, 9], [2, 3], [0, 0], [0, 0]⟩
      [1, 1] [2, 3] [1, 2] rfl rfl rfl rfl rfl rfl
      (by intro x hx; simp only [List.mem_cons, List.not_mem_nil, or_false,
            List.mem_singleton] at hx; rcases hx with rfl | rfl <;> norm_num)
    exact h

/-! ### The intensity-normalisation stage and its toggle -/

/-- With the `intensity_norm` toggle off, the per-channel intensity stage is
the identity. -/
theorem intensity_correction_off (p : CorrectionParameters) (R dR : List ℝ)
    (h : p.normalisation.intensity_norm = false) :
    intensity_correction p R dR = (R, dR) := by
  simp [intensity_correction, h]

/-- With the `intensity_norm` toggle off, one loop iteration reduces to the
pipeline through the background stage. -/
theorem channel_calc_eq_base (p : CorrectionParameters) (dlam_rel : ℝ)
    (ds : DataSet) (h : p.normalisation.intensity_norm = false) :
    channel_calc p dlam_rel ds = channel_base p dlam_rel ds := by
  unfold channel_calc
  cases hb : channel_base p dlam_rel ds with
  | error e => rfl
  | ok o =>
    dsimp only
    rw [intensity_correction_off p o.R o.dR h]

/-- The `mapExcept` only depends on the pointwise behaviour of its function. -/
theorem mapExcept_congr (f g : α → Except ε β) (l : List α)
    (h : ∀ a ∈ l, f a = g a) : mapExcept f l = mapExcept g l := by
  induction l with
  | nil => rfl
  | cons a as ih =>
    unfold mapExcept
    rw [h a (List.mem_cons_self a as), ih fun x hx => h x (List.mem_cons_of_mem a hx)]

/-- C2 (amended): with the `intensity_norm` toggle off, the reduction equals
the pipeline without any intensity stage provided the configured intensity
mode is neither global-maximum nor region-derived; those two modes are keyed
on the mode value alone and act even when the toggle is off. -/
theorem intensity_norm_disabled_noop (p : CorrectionParameters) (dlam_rel : ℝ)
    (data_list : List DataSet)
    (hoff : p.normalisation.intensity_norm = false)
    (hglob : p.normalisation.intensity_norm_type ≠ IntensityTypeCorrection.maxValueGlobal)
    (hpsd : p.normalisation.intensity_norm_type ≠ IntensityTypeCorrection.psdRegion) :
    calculate p dlam_rel data_list = mapExcept (channel_base p dlam_rel) data_list := by
  unfold calculate
  rw [mapExcept_congr _ _ _ fun ds _ => channel_calc_eq_base p dlam_rel ds hoff]
  cases h : mapExcept (channel_base p dlam_rel) data_list with
  | error e => rfl
  | ok outs => simp [hglob, hpsd]

/-- Witness for C2's amended theorem: a configuration with intensity
normalisation disabled and constant mode selected, on one single-point
channel. -/
theorem intensity_norm_disabled_noop_witness :
    (⟨⟨"counter", none⟩, ⟨false, false, false, IntensityTypeCorrection.constValue, 1, 1, none⟩,
        ⟨false, BackgroundTypeCorrection.constValue, none, 0, none⟩,
        ⟨false, false, false, AdsorptionTypeCorrection.constValue, MuDataEnum.glass, 0⟩, ""⟩ :
      CorrectionParameters).normalisation.intensity_norm = false ∧
    calculate
        ⟨⟨"counter", none⟩, ⟨false, false, false, IntensityTypeCorrection.constValue, 1, 1, none⟩,
          ⟨false, BackgroundTypeCorrection.constValue, none, 0, none⟩,
          ⟨false, false, false, AdsorptionTypeCorrection.constValue, MuDataEnum.glass, 0⟩, ""⟩ 0.02
        [⟨⟨⟨"o", "a"⟩, ⟨"t", "i"⟩, ⟨"s", 10, 1, 0⟩⟩,
          ⟨⟨(0, 2), "deg", 4.5, ⟨1, 1, 2, 1⟩⟩, ["f"]⟩,
          [1], [1], [1], [4], [2], [0], [0]⟩] =
      mapExcept (channel_base
        ⟨⟨"counter", none⟩, ⟨false, false, false, IntensityTypeCorrection.constValue, 1, 1, none⟩,
          ⟨false, BackgroundTypeCorrection.constValue, none, 0, none⟩,
          ⟨false, false, false, AdsorptionTypeCorrection.constValue, MuDataEnum.glass, 0⟩, ""⟩ 0.02)
        [⟨⟨⟨"o", "a"⟩, ⟨"t", "i"⟩, ⟨"s", 10, 1, 0⟩⟩,
          ⟨⟨(0, 2), "deg", 4.5, ⟨1, 1, 2, 1⟩⟩, ["f"]⟩,
          [1], [1], [1], [4], [2], [0], [0]⟩] :=
  ⟨rfl, intensity_norm_disabled_noop _ _ _ rfl (by decide) (by decide)⟩

/-- Counterexample to C2 as stated: with intensity normalisation disabled
but the global-maximum mode selected, the deferred global pass still rescales
`R` — a single channel with raw counts `[4]` and all corrections and
normalisations off ends with `R = [1]`, while the pipeline without the
intensity stage gives `R = [4]`. -/
theorem intensity_norm_disabled_global_counterexample :
    (⟨⟨"counter", none⟩, ⟨false, false, false, IntensityTypeCorrection.maxValueGlobal, 1, 1, none⟩,
        ⟨false, BackgroundTypeCorrection.constValue, none, 0, none⟩,
        ⟨false, false, false, AdsorptionTypeCorrection.constValue, MuDataEnum.glass, 0⟩, ""⟩ :
      CorrectionParameters).normalisation.intensity_norm = false ∧
    getR (calculate
        ⟨⟨"counter", none⟩, ⟨false, false, false, IntensityTypeCorrection.maxValueGlobal, 1, 1, none⟩,
          ⟨false, BackgroundTypeCorrection.constValue, none, 0, none⟩,
          ⟨false, false, false, AdsorptionTypeCorrection.constValue, MuDataEnum.glass, 0⟩, ""⟩ 0.02
        [⟨⟨⟨"o", "a"⟩, ⟨"t", "i"⟩, ⟨"s", 10, 1, 0⟩⟩,
          ⟨⟨(0, 2), "deg", 4.5, ⟨1, 1, 2, 1⟩⟩, ["f"]⟩,
          [1], [1], [1], [4], [2], [0], [0]⟩]) = [[1]] ∧
    getR (mapExcept (channel_base
        ⟨⟨"counter", none⟩, ⟨false, false, false, IntensityTypeCorrection.maxValueGlobal, 1, 1, none⟩,
          ⟨false, BackgroundTypeCorrection.constValue, none, 0, none⟩,
          ⟨false, false, false, AdsorptionTypeCorrection.constValue, MuDataEnum.glass, 0⟩, ""⟩ 0.02)
        [⟨⟨⟨"o", "a"⟩, ⟨"t", "i"⟩, ⟨"s", 10, 1, 0⟩⟩,
          ⟨⟨(0, 2), "deg", 4.5, ⟨1, 1, 2, 1⟩⟩, ["f"]⟩,
          [1], [1], [1], [4], [2], [0], [0]⟩]) = [[4]] ∧
    ([[(1:ℝ)]] : List (List ℝ)) ≠ [[4]] := by
  have hbase : channel_base
      ⟨⟨"counter", none⟩, ⟨false, false, false, IntensityTypeCorrection.maxValueGlobal, 1, 1, none⟩,
        ⟨false, BackgroundTypeCorrection.constValue, none, 0, none⟩,
        ⟨false, false, false, AdsorptionTypeCorrection.constValue, MuDataEnum.glass, 0⟩, ""⟩ 0.02
      ⟨⟨⟨"o", "a"⟩, ⟨"t", "i"⟩, ⟨"s", 10, 1, 0⟩⟩,
        ⟨⟨(0, 2), "deg", 4.5, ⟨1, 1, 2, 1⟩⟩, ["f"]⟩,
        [1], [1], [1], [4], [2], [0], [0]⟩ =
      Except.ok ⟨[(q_with_resolution_from_slits 1 4.5 ⟨1, 1, 2, 1⟩ 0.02).1],
        [(q_with_resolution_from_slits 1 4.5 ⟨1, 1, 2, 1⟩ 0.02).2],
        [4 * 1 * 1], [2 * 1 * 1]⟩ := by
    simp [channel_base, correction, normalisation, background_correction]
  refine ⟨rfl, ?_, ?_, by norm_num⟩
  · simp only [calculate, mapExcept, channel_calc, hbase, intensity_correction,
      global_rescale, npMax, getR]
    norm_num
    rw [if_neg (show ¬(IntensityTypeCorrection.maxValueGlobal =
      IntensityTypeCorrection.psdRegion) from by decide)]
    rfl
  · simp only [mapExcept, hbase, getR]
    norm_num

/-! ### Unimplemented features -/

/-- When polarisation correction is off, the correction-coefficient stage
never raises. -/
theorem correction_ok (p : CorrectionParameters) (ds : DataSet)
    (hpol : p.reduction.polarisation_correction = false) :
    ∃ c, correction p ds = Except.ok c := by
  unfold correction
  rw [if_neg (by rw [hpol]; decide)]
  exact ⟨_, rfl⟩

/-- When file-mode background is not requested, the background stage never
raises. -/
theorem background_correction_ok (p : CorrectionParameters) (ds : DataSet)
    (norm_coefficient R dR : List ℝ)
    (hbg : ¬(p.background.use_correction = true ∧
      p.background.correction_type = BackgroundTypeCorrection.extraFile)) :
    ∃ rd, background_correction p ds norm_coefficient R dR = Except.ok rd := by
  unfold background_correction
  by_cases huse : p.background.use_correction = true
  · rw [if_pos huse, if_neg fun h => hbg ⟨huse, h⟩]
    by_cases hty : p.background.correction_type = BackgroundTypeCorrection.psdRegion
    · rw [if_pos hty]; exact ⟨_, rfl⟩
    · rw [if_neg hty]; exact ⟨_, rfl⟩
  · rw [if_neg huse]; exact ⟨_, rfl⟩

/-- When neither polarisation correction nor file-mode background is
requested, one loop iteration never raises. -/
theorem channel_calc_ok (p : CorrectionParameters) (dlam_rel : ℝ) (ds : DataSet)
    (hpol : p.reduction.polarisation_correction = false)
    (hbg : ¬(p.background.use_correction = true ∧
      p.background.correction_type = BackgroundTypeCorrection.extraFile)) :
    ∃ o, channel_calc p dlam_rel ds = Except.ok o := by
  obtain ⟨c, hc⟩ := correction_ok p ds hpol
  obtain ⟨rd, hrd⟩ := background_correction_ok p ds (normalisation p ds)
    (List.zipWith (· * ·) (List.zipWith (· * ·) ds.counts c) (normalisation p ds))
    (List.zipWith (· * ·) (List.zipWith (· * ·) ds.e_counts c) (normalisation p ds)) hbg
  unfold channel_calc channel_base
  rw [hc]
  dsimp only
  rw [hrd]
  exact ⟨_, rfl⟩

/-- A loop that never raises returns a value. -/
theorem mapExcept_ok (f : α → Except ε β) (l : List α)
    (h : ∀ a ∈ l, ∃ b, f a = Except.ok b) :
    ∃ bs, mapExcept f l = Except.ok bs := by
  induction l with
  | nil => exact ⟨[], rfl⟩
  | cons a as ih =>
    obtain ⟨b, hb⟩ := h a (List.mem_cons_self a as)
    obtain ⟨bs, hbs⟩ := ih fun x hx => h x (List.mem_cons_of_mem a hx)
    refine ⟨b :: bs, ?_⟩
    unfold mapExcept
    rw [hb, hbs]

/-- C8: each of the three unimplemented features — polarisation correction,
background from file, region-derived intensity normalisation — makes the
reduction fail with its own explicit `NotImplementedError` (so no output
document can be produced from the failed `calculate`), instead of being
silently ignored. -/
theorem unimplemented_features_fail :
    (∀ (p : CorrectionParameters) (dlam_rel : ℝ) (ds : DataSet) (dss : List DataSet),
      p.reduction.polarisation_correction = true →
      calculate p dlam_rel (ds :: dss) =
        Except.error (PyError.notImplementedError none)) ∧
    (∀ (p : CorrectionParameters) (dlam_rel : ℝ) (ds : DataSet) (dss : List DataSet),
      p.reduction.polarisation_correction = false →
      p.background.use_correction = true →
      p.background.correction_type = BackgroundTypeCorrection.extraFile →
      calculate p dlam_rel (ds :: dss) =
        Except.error (PyError.notImplementedError none)) ∧
    (∀ (p : CorrectionParameters) (dlam_rel : ℝ) (dss : List DataSet),
      p.reduction.polarisation_correction = false →
      ¬(p.background.use_correction = true ∧
        p.background.correction_type = BackgroundTypeCorrection.extraFile) →
      p.normalisation.intensity_norm_type = IntensityTypeCorrection.psdRegion →
      calculate p dlam_rel dss =
        Except.error (PyError.notImplementedError
          (some "IntensityTypeCorrection.psdRegion is not implemented yet"))) := by
  refine ⟨?_, ?_, ?_⟩
  · intro p dlam_rel ds dss hpol
    have hc : correction p ds = Except.error (PyError.notImplementedError none) := by
      unfold correction
      rw [if_pos hpol]
    unfold calculate mapExcept channel_calc channel_base
    rw [hc]
  · intro p dlam_rel ds dss hpol huse hty
    obtain ⟨c, hc⟩ := correction_ok p ds hpol
    have hb : background_correction p ds (normalisation p ds)
        (List.zipWith (· * ·) (List.zipWith (· * ·) ds.counts c) (normalisation p ds))
        (List.zipWith (· * ·) (List.zipWith (· * ·) ds.e_counts c) (normalisation p ds)) =
        Except.error (PyError.notImplementedError none) := by
      unfold background_correction
      rw [if_pos huse, if_pos hty]
    unfold calculate mapExcept channel_calc channel_base
    rw [hc]
    dsimp only
    rw [hb]
  · intro p dlam_rel dss hpol hbg hty
    obtain ⟨outs, ho⟩ := mapExcept_ok (channel_calc p dlam_rel) dss
      fun ds _ => channel_calc_ok p dlam_rel ds hpol hbg
    unfold calculate
    rw [ho]
    dsimp only
    rw [if_pos hty]

/-- Witness for C8: three concrete configurations — polarisation correction
requested on one dataset; file-mode background requested on one dataset; and
region-derived intensity normalisation requested (with an empty channel
list, the loop is a no-op and the failure still fires). -/
theorem unimplemented_features_fail_witness :
    calculate
        ⟨⟨"counter", none⟩, ⟨true, true, true, IntensityTypeCorrection.constValue, 1, 1, none⟩,
          ⟨false, BackgroundTypeCorrection.constValue, none, 0, none⟩,
          ⟨false, false, true, AdsorptionTypeCorrection.constValue, MuDataEnum.glass, 0⟩, ""⟩ 0.02
        [⟨⟨⟨"o", "a"⟩, ⟨"t", "i"⟩, ⟨"s", 10, 1, 0⟩⟩,
          ⟨⟨(0, 2), "deg", 4.5, ⟨1, 1, 2, 1⟩⟩, ["f"]⟩,
          [1], [1], [1], [4], [2], [0], [0]⟩] =
      Except.error (PyError.notImplementedError none) ∧
    calculate
        ⟨⟨"counter", none⟩, ⟨true, true, true, IntensityTypeCorrection.constValue, 1, 1, none⟩,
          ⟨true, BackgroundTypeCorrection.extraFile, some "bg.dat", 0, none⟩,
          ⟨false, false, false, AdsorptionTypeCorrection.constValue, MuDataEnum.glass, 0⟩, ""⟩ 0.02
        [⟨⟨⟨"o", "a"⟩, ⟨"t", "i"⟩, ⟨"s", 10, 1, 0⟩⟩,
          ⟨⟨(0, 2), "deg", 4.5, ⟨1, 1, 2, 1⟩⟩, ["f"]⟩,
          [1], [1], [1], [4], [2], [0], [0]⟩] =
      Except.error (PyError.notImplementedError none) ∧
    calculate
        ⟨⟨"counter", none⟩, ⟨true, true, true, IntensityTypeCorrection.psdRegion, 1, 1, none⟩,
          ⟨false, BackgroundTypeCorrection.constValue, none, 0, none⟩,
          ⟨false, false, false, AdsorptionTypeCorrection.constValue, MuDataEnum.glass, 0⟩, ""⟩ 0.02
        [] =
      Except.error (PyError.notImplementedError
        (some "IntensityTypeCorrection.psdRegion is not implemented yet")) :=
  ⟨unimplemented_features_fail.1 _ _ _ _ rfl,
   unimplemented_features_fail.2.1 _ _ _ _ rfl rfl rfl,
   unimplemented_features_fail.2.2 _ _ _ rfl (by simp) rfl⟩

/-- C1: single unpolarized channel on a point detector, 10 scan points,
`monitor = [1000]×10`, `time = [1]×10`, `counts = [100]×10`, with only
monitor normalisation and constant intensity normalisation (value 1)
enabled: extraction yields the counts with `sqrt` uncertainties, and the
reduction produces `R = [0.1]×10` and `dR = [0.01]×10` — i.e.
`R = counts·corr·norm` and `dR = sqrt(counts)·corr·norm` with both
coefficients treated as exact. -/
theorem reduction_concrete_scenario
    (p : CorrectionParameters) (dlam_rel : ℝ) (theta : List ℝ)
    (hdr : DataSetMetadata) (meas : MeasurementData)
    (hdet : p.data_source.detector ≠ "2Ddata")
    (hfoot : p.reduction.foot_print_correction = false)
    (habs : p.reduction.absorption_correction = false)
    (hpol : p.reduction.polarisation_correction = false)
    (hmon : p.normalisation.monitor = true)
    (htime : p.normalisation.time = false)
    (hion : p.normalisation.intensity_norm = true)
    (hity : p.normalisation.intensity_norm_type = IntensityTypeCorrection.constValue)
    (hival : p.normalisation.intensity_value = 1)
    (hbg : p.background.use_correction = false) :
    get_detector_data p (RawCounts.point (List.replicate 10 (100:ℝ))) =
      some (List.replicate 10 (100:ℝ), List.replicate 10 0,
            List.replicate 10 10, List.replicate 10 0) ∧
    getR (calculate p dlam_rel
        [⟨hdr, meas, theta, List.replicate 10 1, List.replicate 10 1000,
          List.replicate 10 100, List.replicate 10 10,
          List.replicate 10 0, List.replicate 10 0⟩]) =
      [List.replicate 10 (0.1:ℝ)] ∧
    getdR (calculate p dlam_rel
        [⟨hdr, meas, theta, List.replicate 10 1, List.replicate 10 1000,
          List.replicate 10 100, List.replicate 10 10,
          List.replicate 10 0, List.replicate 10 0⟩]) =
      [List.replicate 10 (0.01:ℝ)] := by
  have h100 : Real.sqrt (100:ℝ) = 10 := by
    rw [show (100:ℝ) = 10 ^ 2 by norm_num,
      Real.sqrt_sq (by norm_num : (0:ℝ) ≤ (10:ℝ))]
  have habs1000 : ¬(|(1000:ℝ)| < 1e-12) := by
    rw [abs_of_pos (show (0:ℝ) < 1000 by norm_num)]
    norm_num
  have hsd : safety_div 1 1000 = 1 / 1000 := by
    unfold safety_div
    rw [if_neg habs1000]
  refine ⟨by simp [get_detector_data, hdet, h100], ?_, ?_⟩ <;>
  · simp [calculate, mapExcept, channel_calc, channel_base, correction,
      normalisation, background_correction, intensity_correction, getR, getdR,
      hfoot, habs, hpol, hmon, htime, hion, hity, hival, hbg,
      zipWith_replicate_both, hsd]
    norm_num

/-- Witness for C1: the scenario instantiated with the point detector
`"counter"`, λ = 4.5 Å, and a linear 10-point θ ramp. -/
theorem reduction_concrete_scenario_witness :
    (⟨⟨"counter", none⟩, ⟨false, true, true, IntensityTypeCorrection.constValue, 1, 1, none⟩,
        ⟨false, BackgroundTypeCorrection.constValue, none, 0, none⟩,
        ⟨false, false, false, AdsorptionTypeCorrection.constValue, MuDataEnum.glass, 0⟩, ""⟩ :
      CorrectionParameters).data_source.detector ≠ "2Ddata" ∧
    getR (calculate
        ⟨⟨"counter", none⟩, ⟨false, true, true, IntensityTypeCorrection.constValue, 1, 1, none⟩,
          ⟨false, BackgroundTypeCorrection.constValue, none, 0, none⟩,
          ⟨false, false, false, AdsorptionTypeCorrection.constValue, MuDataEnum.glass, 0⟩, ""⟩ 0.02
        [⟨⟨⟨"o", "a"⟩, ⟨"t", "i"⟩, ⟨"s", 10, 1, 0⟩⟩,
          ⟨⟨(0, 2), "deg", 4.5, ⟨1, 1, 2, 1⟩⟩, ["f"]⟩,
          List.replicate 10 1, List.replicate 10 1, List.replicate 10 1000,
          List.replicate 10 100, List.replicate 10 10,
          List.replicate 10 0, List.replicate 10 0⟩]) =
      [List.replicate 10 (0.1:ℝ)] ∧
    getdR (calculate
        ⟨⟨"counter", none⟩, ⟨false, true, true, IntensityTypeCorrection.constValue, 1, 1, none⟩,
          ⟨false, BackgroundTypeCorrection.constValue, none, 0, none⟩,
          ⟨false, false, false, AdsorptionTypeCorrection.constValue, MuDataEnum.glass, 0⟩, ""⟩ 0.02
        [⟨⟨⟨"o", "a"⟩, ⟨"t", "i"⟩, ⟨"s", 10, 1, 0⟩⟩,
          ⟨⟨(0, 2), "deg", 4.5, ⟨1, 1, 2, 1⟩⟩, ["f"]⟩,
          List.replicate 10 1, List.replicate 10 1, List.replicate 10 1000,
          List.replicate 10 100, List.replicate 10 10,
          List.replicate 10 0, List.replicate 10 0⟩]) =
      [List.replicate 10 (0.01:ℝ)] := by
  have h := reduction_concrete_scenario
    ⟨⟨"counter", none⟩, ⟨false, true, true, IntensityTypeCorrection.constValue, 1, 1, none⟩,
      ⟨false, BackgroundTypeCorrection.constValue, none, 0, none⟩,
      ⟨false, false, false, AdsorptionTypeCorrection.constValue, MuDataEnum.glass, 0⟩, ""⟩
    0.02 (List.replicate 10 1)
    ⟨⟨"o", "a"⟩, ⟨"t", "i"⟩, ⟨"s", 10, 1, 0⟩⟩
    ⟨⟨(0, 2), "deg", 4.5, ⟨1, 1, 2, 1⟩⟩, ["f"]⟩
    (by simp) rfl rfl rfl rfl rfl rfl rfl rfl rfl
  exact ⟨by simp, h.2.1, h.2.2⟩

/-! ### Region-mode background extraction -/

/-- Modelled from the spec (the claim's formula, written independently of the
code's mask construction): the pixels lying in the background rectangle but
not in the signal rectangle. -/
def spec_background_pixels (rs rb : Region) : Finset (ℕ × ℕ) :=
  (Finset.Icc rb.y_min rb.y_max ×ˢ Finset.Icc rb.x_min rb.x_max).filter
    fun q => ¬(rs.y_min ≤ q.1 ∧ q.1 ≤ rs.y_max ∧
               rs.x_min ≤ q.2 ∧ q.2 ≤ rs.x_max)

/-- The code's masked frame sum equals the spec's sum over the pixels of the
background rectangle outside the signal rectangle. -/
theorem masked_sum_eq_spec (f : ℕ → ℕ → ℝ) (rs rb : Region) :
    masked_sum f rb (signal_mask rs) =
      ∑ q in spec_background_pixels rs rb, f q.1 q.2 := by
  unfold masked_sum spec_background_pixels
  rw [Finset.sum_filter, Finset.sum_product]
  refine Finset.sum_congr rfl fun y _ => Finset.sum_congr rfl fun x _ => ?_
  refine if_congr ?_ rfl rfl
  simp only [signal_mask, Bool.not_eq_true', decide_eq_false_iff_not]

/-- The code's mask cardinality equals the spec's pixel count. -/
theorem masked_count_eq_spec (rs rb : Region) :
    masked_count rb (signal_mask rs) = (spec_background_pixels rs rb).card := by
  unfold masked_count spec_background_pixels
  rw [Finset.card_filter, Finset.sum_product]
  refine Finset.sum_congr rfl fun y _ => Finset.sum_congr rfl fun x _ => ?_
  refine if_congr ?_ rfl rfl
  simp only [signal_mask, Bool.not_eq_true', decide_eq_false_iff_not]

/-- C3: with the 2-D detector and region-mode background enabled, the
per-frame background estimate excludes every pixel of the signal rectangle
when the two rectangles overlap — it is the sum of counts over the pixels in
the background rectangle but not in the signal rectangle, divided by the
number of such pixels — and is the plain region average
`sum / pixel_count` over the background rectangle when they do not
overlap. -/
theorem background_region_estimate (p : CorrectionParameters)
    (frames : List (ℕ → ℕ → ℝ)) (rs rb : Region)
    (hdet : p.data_source.detector = "2Ddata")
    (hreg : p.data_source.region = some rs)
    (huse : p.background.use_correction = true)
    (hty : p.background.correction_type = BackgroundTypeCorrection.psdRegion)
    (hbreg : p.background.region = some rb) :
    (regions_overlap rs rb = true →
      get_detector_data p (RawCounts.psd frames) =
        some ((extract_region_mean frames rs).1,
          frames.map fun f =>
            (∑ q in spec_background_pixels rs rb, f q.1 q.2) /
              ((spec_background_pixels rs rb).card : ℝ),
          (extract_region_mean frames rs).2,
          frames.map fun f =>
            Real.sqrt (∑ q in spec_background_pixels rs rb, f q.1 q.2) /
              ((spec_background_pixels rs rb).card : ℝ))) ∧
    (regions_overlap rs rb = false →
      get_detector_data p (RawCounts.psd frames) =
        some ((extract_region_mean frames rs).1,
          frames.map fun f => region_sum f rb / (pixel_num rb : ℝ),
          (extract_region_mean frames rs).2,
          frames.map fun f => Real.sqrt (region_sum f rb) / (pixel_num rb : ℝ))) := by
  have hstep : get_detector_data p (RawCounts.psd frames) =
      if regions_overlap rs rb then
        some ((extract_region_mean frames rs).1,
          frames.map fun f =>
            masked_sum f rb (signal_mask rs) /
              (masked_count rb (signal_mask rs) : ℝ),
          (extract_region_mean frames rs).2,
          frames.map fun f =>
            Real.sqrt (masked_sum f rb (signal_mask rs)) /
              (masked_count rb (signal_mask rs) : ℝ))
      else
        some ((extract_region_mean frames rs).1,
          (extract_region_mean frames rb).1,
          (extract_region_mean frames rs).2,
          (extract_region_mean frames rb).2) := by
    simp [get_detector_data, hdet, hreg, huse, hty, hbreg]
  constructor
  · intro hov
    rw [hstep, if_pos hov]
    simp only [masked_sum_eq_spec, masked_count_eq_spec]
  · intro hnov
    rw [hstep, if_neg (by rw [hnov]; decide)]
    rfl

/-- Witness for C3: one frame with pixel values `y·10 + x`, an overlapping
pair of rectangles (signal `[0,1]×[0,1]`, background `[1,2]×[1,2]`) and a
disjoint pair (signal `[0,0]×[0,0]`, background `[2,3]×[2,3]`). -/
theorem background_region_estimate_witness :
    (regions_overlap ⟨0, 1, 0, 1⟩ ⟨1, 2, 1, 2⟩ = true ∧
      get_detector_data
        ⟨⟨"2Ddata", some ⟨0, 1, 0, 1⟩⟩,
          ⟨true, true, true, IntensityTypeCorrection.constValue, 1, 1, none⟩,
          ⟨true, BackgroundTypeCorrection.psdRegion, none, 0, some ⟨1, 2, 1, 2⟩⟩,
          ⟨false, false, false, AdsorptionTypeCorrection.constValue, MuDataEnum.glass, 0⟩, ""⟩
        (RawCounts.psd [fun y x => ((y * 10 + x : ℕ) : ℝ)]) =
      some ((extract_region_mean [fun y x => ((y * 10 + x : ℕ) : ℝ)] ⟨0, 1, 0, 1⟩).1,
        [fun f => (∑ q in spec_background_pixels ⟨0, 1, 0, 1⟩ ⟨1, 2, 1, 2⟩, f q.1 q.2) /
            ((spec_background_pixels ⟨0, 1, 0, 1⟩ ⟨1, 2, 1, 2⟩).card : ℝ)].map
          (fun g => g fun y x => ((y * 10 + x : ℕ) : ℝ)),
        (extract_region_mean [fun y x => ((y * 10 + x : ℕ) : ℝ)] ⟨0, 1, 0, 1⟩).2,
        [fun f => Real.sqrt (∑ q in spec_background_pixels ⟨0, 1, 0, 1⟩ ⟨1, 2, 1, 2⟩, f q.1 q.2) /
            ((spec_background_pixels ⟨0, 1, 0, 1⟩ ⟨1, 2, 1, 2⟩).card : ℝ)].map
          (fun g => g fun y x => ((y * 10 + x : ℕ) : ℝ)))) ∧
    (regions_overlap ⟨0, 0, 0, 0⟩ ⟨2, 3, 2, 3⟩ = false ∧
      get_detector_data
        ⟨⟨"2Ddata", some ⟨0, 0, 0, 0⟩⟩,
          ⟨true, true, true, IntensityTypeCorrection.constValue, 1, 1, none⟩,
          ⟨true, BackgroundTypeCorrection.psdRegion, none, 0, some ⟨2, 3, 2, 3⟩⟩,
          ⟨false, false, false, AdsorptionTypeCorrection.constValue, MuDataEnum.glass, 0⟩, ""⟩
        (RawCounts.psd [fun y x => ((y * 10 + x : ℕ) : ℝ)]) =
      some ((extract_region_mean [fun y x => ((y * 10 + x : ℕ) : ℝ)] ⟨0, 0, 0, 0⟩).1,
        [fun y x => ((y * 10 + x : ℕ) : ℝ)].map
          (fun f => region_sum f ⟨2, 3, 2, 3⟩ / (pixel_num ⟨2, 3, 2, 3⟩ : ℝ)),
        (extract_region_mean [fun y x => ((y * 10 + x : ℕ) : ℝ)] ⟨0, 0, 0, 0⟩).2,
        [fun y x => ((y * 10 + x : ℕ) : ℝ)].map
          (fun f => Real.sqrt (region_sum f ⟨2, 3, 2, 3⟩) / (pixel_num ⟨2, 3, 2, 3⟩ : ℝ)))) := by
  constructor
  · refine ⟨by decide, ?_⟩
    have h := (background_region_estimate
      ⟨⟨"2Ddata", some ⟨0, 1, 0, 1⟩⟩,
        ⟨true, true, true, IntensityTypeCorrection.constValue, 1, 1, none⟩,
        ⟨true, BackgroundTypeCorrection.psdRegion, none, 0, some ⟨1, 2, 1, 2⟩⟩,
        ⟨false, false, false, AdsorptionTypeCorrection.constValue, MuDataEnum.glass, 0⟩, ""⟩
      [fun y x => ((y * 10 + x : ℕ) : ℝ)] ⟨0, 1, 0, 1⟩ ⟨1, 2, 1, 2⟩
      rfl rfl rfl rfl rfl).1 (by decide)
    simpa using h
  · refine ⟨by decide, ?_⟩
    have h := (background_region_estimate
      ⟨⟨"2Ddata", some ⟨0, 0, 0, 0⟩⟩,
        ⟨true, true, true, IntensityTypeCorrection.constValue, 1, 1, none⟩,
        ⟨true, BackgroundTypeCorrection.psdRegion, none, 0, some ⟨2, 3, 2, 3⟩⟩,
        ⟨false, false, false, AdsorptionTypeCorrection.constValue, MuDataEnum.glass, 0⟩, ""⟩
      [fun y x => ((y * 10 + x : ℕ) : ℝ)] ⟨0, 0, 0, 0⟩ ⟨2, 3, 2, 3⟩
      rfl rfl rfl rfl rfl).2 (by decide)
    simpa using h

end GINja
